import Mathlib

/-!
Shallow embedding of the barter-rs execution layer and portfolio/cerebrum modules.

Sources embedded:
- src/barter-execution/src/client/mod.rs : the ExecutionClient trait, its provided
  (default) batched dispatch methods cancel_orders / open_orders built on
  futures::stream::FuturesUnordered, and the one-shot query methods.
- src/src/portfolio/mod.rs : OrderEvent, OrderType, OrderEventBuilder and Balance.
- src/src/cerebrum/account.rs : the AccountUpdater engine state and its transition
  update_from_account_event, plus the From conversion to the Consumer state.

Identity and value types that the trait signatures use (ExchangeId,
InstrumentNameExchange, AssetNameExchange, the Order record, the error taxonomy and
the account-event shapes) live in crates of this repository whose sources are not
available; they are modelled from the specification, and each such definition says so
in its doc comment.

Machine floating-point quantities (f64) are modelled as rationals: none of the
embedded code performs arithmetic on them, it only stores and compares them.
Asynchronous single-order calls are modelled as total functions from request to the
resolved terminal order record (the future's output), and a stream produced by
FuturesUnordered is modelled by the multiset of its yielded items, since the only
ordering guarantee is "each spawned future's output exactly once, in unspecified
completion order".
-/

deriving instance DecidableEq for Except

namespace Barter

/-- Modelled from the spec: exchange identifier (barter-instrument ExchangeId), pure
identity data with no behaviour. -/
structure ExchangeId where
  id : Nat
deriving DecidableEq, Repr

/-- Modelled from the spec: exchange-local instrument identifier
(barter-instrument InstrumentNameExchange), pure identity data. -/
structure InstrumentNameExchange where
  name : String
deriving DecidableEq, Repr

/-- Modelled from the spec: exchange-local asset identifier
(barter-instrument AssetNameExchange), pure identity data. -/
structure AssetNameExchange where
  name : String
deriving DecidableEq, Repr

/-- Modelled from the spec: a point in time (chrono DateTime of Utc), used only as an
opaque timestamp value. -/
abbrev DateTimeUtc := Nat

/-- Modelled from the spec: the intent-to-open lifecycle marker RequestOpen; its
payload is irrelevant to the embedded code, which never inspects it. -/
structure RequestOpen where
  cid : String
deriving DecidableEq, Repr

/-- Modelled from the spec: the intent-to-cancel lifecycle marker RequestCancel. -/
structure RequestCancel where
  cid : String
deriving DecidableEq, Repr

/-- Modelled from the spec: the acknowledged-open terminal state Open, carrying the
exchange order id. -/
structure Open where
  order_id : String
deriving DecidableEq, Repr

/-- Modelled from the spec: the acknowledged-cancel terminal state Cancelled, carrying
the exchange order id. -/
structure Cancelled where
  order_id : String
deriving DecidableEq, Repr

/-- Modelled from the spec (section 4.5): per-order isolated failure kinds: order
rejected by the exchange, cancel target not found, transport failure specific to that
one request, timeout of that one request. -/
inductive OrderError where
  | rejected (reason : String)
  | notFound
  | transport (detail : String)
  | timeout
deriving DecidableEq, Repr

/-- Modelled from the spec (section 4.5): call-level wholesale failure kinds. -/
inductive ClientError where
  | connectivity
  | auth
  | rateLimit
  | malformedConfig
  | timeout
deriving DecidableEq, Repr

/-- Modelled from the spec (section 3): the order record, identity plus current
lifecycle stage: (exchange identifier, instrument identifier, state payload). -/
structure Order (Exchange Instrument State : Type) where
  exchange : Exchange
  instrument : Instrument
  state : State
deriving DecidableEq, Repr

/-- Modelled from the spec (section 3): connection status reported by an adapter on
the account event stream. -/
inductive ConnectionStatus where
  | connected
  | disconnected
deriving DecidableEq, Repr

/-- Modelled from the spec (section 3): AssetBalance, the 4-tuple
(asset, total, available, as-of time). -/
structure AssetBalance (Asset : Type) where
  asset : Asset
  total : ℚ
  available : ℚ
  time_exchange : DateTimeUtc
deriving DecidableEq, Repr

/-- Modelled from the spec (section 3): Trade, an executed fill. -/
structure Trade where
  instrument : InstrumentNameExchange
  quote : AssetNameExchange
  price : ℚ
  quantity : ℚ
  time_exchange : DateTimeUtc
  order_id : String
deriving DecidableEq, Repr

/-- Modelled from the spec (section 3): AccountEvent, a closed set of variants:
new-order acknowledgment, cancellation acknowledgment, trade/fill, balance update,
connection-status change. This is the item type of the account stream. -/
inductive UnindexedAccountEvent where
  | orderOpened
      (order : Order ExchangeId InstrumentNameExchange (Except OrderError Open))
  | orderCancelled
      (order : Order ExchangeId InstrumentNameExchange (Except OrderError Cancelled))
  | trade (fill : Trade)
  | balanceUpdate (balance : AssetBalance AssetNameExchange)
  | connectionStatus (status : ConnectionStatus)
deriving DecidableEq, Repr

/-- Modelled from the spec (section 3): AccountSnapshot, a point-in-time read of
balances and open orders, scoped per exchange. -/
structure UnindexedAccountSnapshot where
  balances : List (AssetBalance AssetNameExchange)
  open_orders : List (Order ExchangeId InstrumentNameExchange Open)
deriving DecidableEq, Repr

/-- Shallow embedding of the ExecutionClient trait
(src/barter-execution/src/client/mod.rs, lines 23-97): an adapter supplies the
single-order primitives, the account snapshot/stream establishment and the one-shot
queries. Each async method's future is modelled by its resolved output; the account
stream is modelled as the infinite sequence of its items. The provided (default)
batched methods cancel_orders / open_orders are defined below, outside the
structure, exactly as the trait supplies them generically over any implementor. -/
structure ExecutionClient where
  exchange : ExchangeId
  account_snapshot : List AssetNameExchange → List InstrumentNameExchange →
    Except ClientError UnindexedAccountSnapshot
  account_stream : List AssetNameExchange → List InstrumentNameExchange →
    Except ClientError (Nat → UnindexedAccountEvent)
  cancel_order : Order ExchangeId InstrumentNameExchange RequestCancel →
    Order ExchangeId InstrumentNameExchange (Except OrderError Cancelled)
  open_order : Order ExchangeId InstrumentNameExchange RequestOpen →
    Order ExchangeId InstrumentNameExchange (Except OrderError Open)
  fetch_balances : Except ClientError (List (AssetBalance AssetNameExchange))
  fetch_open_orders :
    Except ClientError (List (Order ExchangeId InstrumentNameExchange Open))
  fetch_trades : DateTimeUtc → Except ClientError (List Trade)

/-- Model of futures::stream::FuturesUnordered::from_iter over a list of (already
modelled-as-resolved) futures: the resulting stream yields each future's output
exactly once, in unspecified completion order, so the observable outcome is the
multiset of the outputs. -/
def futuresUnorderedOutputs {α : Type} (futures : List α) : Multiset α :=
  (futures : Multiset α)

/-- The complete yield sequences the unordered stream can produce: any completion
order, i.e. any permutation of the underlying futures' outputs. -/
def CanYield {α : Type} (futures : List α) (out : List α) : Prop :=
  List.Perm out futures

/-- Provided default cancel_orders (src/barter-execution/src/client/mod.rs, lines
53-64): map each request to its own independent cancel_order call and drive all of
them as an unordered completion set. -/
def ExecutionClient.cancel_orders (client : ExecutionClient)
    (requests : List (Order ExchangeId InstrumentNameExchange RequestCancel)) :
    Multiset (Order ExchangeId InstrumentNameExchange (Except OrderError Cancelled)) :=
  futuresUnorderedOutputs (requests.map client.cancel_order)

/-- Provided default open_orders (src/barter-execution/src/client/mod.rs, lines
73-81): map each request to its own independent open_order call and drive all of
them as an unordered completion set. -/
def ExecutionClient.open_orders (client : ExecutionClient)
    (requests : List (Order ExchangeId InstrumentNameExchange RequestOpen)) :
    Multiset (Order ExchangeId InstrumentNameExchange (Except OrderError Open)) :=
  futuresUnorderedOutputs (requests.map client.open_order)

/-- Modelled from the spec (section 8, "Order identity is preserved end-to-end"): the
contract every adapter's single-order primitives must satisfy: the terminal record
carries the (exchange, instrument) identity of the originating request. Concrete
adapter implementations are not under src/, so this contract is stated as a
predicate and assumed where a claim needs it. -/
def PreservesOrderIdentity (client : ExecutionClient) : Prop :=
  (∀ r, (client.cancel_order r).exchange = r.exchange ∧
    (client.cancel_order r).instrument = r.instrument) ∧
  (∀ r, (client.open_order r).exchange = r.exchange ∧
    (client.open_order r).instrument = r.instrument)

/-- Modelled from the spec (sections 6 and 8): a test double satisfying the
ExecutionClient contract. It echoes each request's identity onto its terminal record,
rejects exactly the requests whose instrument is in the configured rejection list,
and serves the configured balances from fetch_balances. -/
def mockClient (reject : List InstrumentNameExchange)
    (balances : List (AssetBalance AssetNameExchange)) : ExecutionClient where
  exchange := ⟨0⟩
  account_snapshot := fun _ _ => Except.ok ⟨balances, []⟩
  account_stream := fun _ _ =>
    Except.ok (fun _ => UnindexedAccountEvent.connectionStatus ConnectionStatus.connected)
  cancel_order := fun r =>
    { exchange := r.exchange
      instrument := r.instrument
      state :=
        if r.instrument ∈ reject then Except.error OrderError.notFound
        else Except.ok ⟨r.state.cid⟩ }
  open_order := fun r =>
    { exchange := r.exchange
      instrument := r.instrument
      state :=
        if r.instrument ∈ reject then Except.error (OrderError.rejected "rejected")
        else Except.ok ⟨r.state.cid⟩ }
  fetch_balances := Except.ok balances
  fetch_open_orders := Except.ok []
  fetch_trades := fun _ => Except.ok []

/-- Modelled from the spec: canonical exchange identity used by the engine-side
portfolio types (barter-integration Exchange), pure identity data. -/
structure Exchange where
  name : String
deriving DecidableEq, Repr

/-- Modelled from the spec: canonical instrument identity used by the engine-side
portfolio types (barter-integration Instrument), pure identity data. -/
structure Instrument where
  base : String
  quote : String
deriving DecidableEq, Repr

/-- Modelled from the spec: metadata propagated from the source MarketEvent
(crate::data::MarketMeta); the portfolio code stores it without inspecting it. -/
structure MarketMeta where
  close : ℚ
  time : DateTimeUtc
deriving DecidableEq, Repr

/-- Modelled from the spec: the strategy Decision enumeration; the variants are the
ones named in src/src/portfolio/mod.rs ("LONG, CloseLong, SHORT or CloseShort"). -/
inductive Decision where
  | long
  | closeLong
  | short
  | closeShort
deriving DecidableEq, Repr

/-- Modelled from the spec: the portfolio error kind used by OrderEventBuilder::build
(portfolio::error::PortfolioError); only the BuilderIncomplete variant is exercised
by the embedded code. -/
inductive PortfolioError where
  | builderIncomplete (field : String)
deriving DecidableEq, Repr

/-- Type of order the portfolio wants the execution handler to place
(src/src/portfolio/mod.rs, lines 95-100). -/
inductive OrderType where
  | market
  | limit
  | bracket
deriving DecidableEq, Repr

/-- Default for OrderType is Market (src/src/portfolio/mod.rs, lines 102-106). -/
instance : Inhabited OrderType := ⟨OrderType.market⟩

/-- OrderEvent (src/src/portfolio/mod.rs, lines 69-82): work for an execution
handler, with f64 quantity modelled as a rational. -/
structure OrderEvent where
  time : DateTimeUtc
  exchange : Exchange
  instrument : Instrument
  market_meta : MarketMeta
  decision : Decision
  quantity : ℚ
  order_type : OrderType
deriving DecidableEq, Repr

/-- OrderEventBuilder (src/src/portfolio/mod.rs, lines 109-118): one optional slot
per OrderEvent field. -/
structure OrderEventBuilder where
  time : Option DateTimeUtc
  exchange : Option Exchange
  instrument : Option Instrument
  market_meta : Option MarketMeta
  decision : Option Decision
  quantity : Option ℚ
  order_type : Option OrderType
deriving DecidableEq, Repr

/-- OrderEventBuilder::new (line 121-123): the derived Default, every slot unset. -/
def OrderEventBuilder.new : OrderEventBuilder :=
  { time := none, exchange := none, instrument := none, market_meta := none
    decision := none, quantity := none, order_type := none }

/-- Setter `time` (lines 125-130): `Self \x7b time: Some(value), ..self \x7d`. Each
Rust setter shares its field's name; Lean forbids that, so the setters are prefixed
with `set_`. -/
def OrderEventBuilder.set_time (self : OrderEventBuilder) (value : DateTimeUtc) :
    OrderEventBuilder :=
  { self with time := some value }

/-- Setter `exchange` (lines 132-137). -/
def OrderEventBuilder.set_exchange (self : OrderEventBuilder) (value : Exchange) :
    OrderEventBuilder :=
  { self with exchange := some value }

/-- Setter `instrument` (lines 139-144). -/
def OrderEventBuilder.set_instrument (self : OrderEventBuilder) (value : Instrument) :
    OrderEventBuilder :=
  { self with instrument := some value }

/-- Setter `market_meta` (lines 146-151). -/
def OrderEventBuilder.set_market_meta (self : OrderEventBuilder) (value : MarketMeta) :
    OrderEventBuilder :=
  { self with market_meta := some value }

/-- Setter `decision` (lines 153-158). -/
def OrderEventBuilder.set_decision (self : OrderEventBuilder) (value : Decision) :
    OrderEventBuilder :=
  { self with decision := some value }

/-- Setter `quantity` (lines 160-165). -/
def OrderEventBuilder.set_quantity (self : OrderEventBuilder) (value : ℚ) :
    OrderEventBuilder :=
  { self with quantity := some value }

/-- Setter `order_type` (lines 167-172). -/
def OrderEventBuilder.set_order_type (self : OrderEventBuilder) (value : OrderType) :
    OrderEventBuilder :=
  { self with order_type := some value }

/-- Rust's Option::ok_or: Some(v) becomes Ok(v), None becomes Err(e). -/
def okOr {α ε : Type} (o : Option α) (e : ε) : Except ε α :=
  match o with
  | some a => Except.ok a
  | none => Except.error e

/-- OrderEventBuilder::build (src/src/portfolio/mod.rs, lines 174-196): each field is
taken with ok_or(BuilderIncomplete(name))? in declaration order, so the error names
the first unset field. -/
def OrderEventBuilder.build (self : OrderEventBuilder) :
    Except PortfolioError OrderEvent := do
  let time ← okOr self.time (PortfolioError.builderIncomplete "time")
  let exchange ← okOr self.exchange (PortfolioError.builderIncomplete "exchange")
  let instrument ← okOr self.instrument (PortfolioError.builderIncomplete "instrument")
  let market_meta ← okOr self.market_meta (PortfolioError.builderIncomplete "market_meta")
  let decision ← okOr self.decision (PortfolioError.builderIncomplete "decision")
  let quantity ← okOr self.quantity (PortfolioError.builderIncomplete "quantity")
  let order_type ← okOr self.order_type (PortfolioError.builderIncomplete "order_type")
  pure { time, exchange, instrument, market_meta, decision, quantity, order_type }

/-- The first unset builder field in build's fixed check order, if any (derived from
the claim, to state build's error behaviour against). -/
def OrderEventBuilder.firstUnset (self : OrderEventBuilder) : Option String :=
  if self.time.isNone then some "time"
  else if self.exchange.isNone then some "exchange"
  else if self.instrument.isNone then some "instrument"
  else if self.market_meta.isNone then some "market_meta"
  else if self.decision.isNone then some "decision"
  else if self.quantity.isNone then some "quantity"
  else if self.order_type.isNone then some "order_type"
  else none

/-- Balance (src/src/portfolio/mod.rs, lines 203-208): total and available at a
point in time, f64 fields modelled as rationals. -/
structure Balance where
  time : DateTimeUtc
  total : ℚ
  available : ℚ
deriving DecidableEq, Repr

/-- Balance::new (lines 220-228): stores the provided values verbatim. -/
def Balance.new (time : DateTimeUtc) (total : ℚ) (available : ℚ) : Balance :=
  { time, total, available }

/-- Balance's Default impl (lines 210-218): zero total and available, timestamped
with Utc::now(); the ambient clock is passed explicitly. -/
def Balance.defaultAt (now : DateTimeUtc) : Balance :=
  { time := now, total := 0, available := 0 }

/-- Modelled from the spec: the engine's event feed handle (cerebrum module, type
definition not under src/), opaque to the embedded transition. -/
structure EventFeed where
  id : Nat
deriving DecidableEq, Repr

/-- Modelled from the spec: the engine's exchange account collection (cerebrum
module, type definition not under src/), opaque to the embedded transition. -/
structure Accounts where
  id : Nat
deriving DecidableEq, Repr

/-- Modelled from the spec: the engine's exchange command transmitter (cerebrum
module, type definition not under src/), opaque to the embedded transition. -/
structure ExchangeTx where
  id : Nat
deriving DecidableEq, Repr

/-- Modelled from the spec: the engine's event transmitter (cerebrum module, type
definition not under src/), opaque to the embedded transition. -/
structure EventTx where
  id : Nat
deriving DecidableEq, Repr

/-- The cerebrum AccountEvent (cerebrum::event): its closed variant set is exactly
the one exhaustively matched in src/src/cerebrum/account.rs, lines 16-37. -/
inductive AccountEvent where
  | orderNew
  | orderCancelled
  | trade
  | balances
  | connectionStatus (status : ConnectionStatus)
deriving DecidableEq, Repr

/-- AccountUpdater engine state (src/src/cerebrum/account.rs, lines 9-11): holds the
account event being applied. -/
structure AccountUpdater where
  account : AccountEvent
deriving DecidableEq, Repr

/-- Consumer engine state (cerebrum::consume::Consumer): a unit marker state. -/
structure Consumer where
deriving DecidableEq, Repr

/-- Modelled from the spec: the Cerebrum state machine record (cerebrum module, type
definition not under src/); its fields are the ones constructed by the From impl in
src/src/cerebrum/account.rs, lines 44-55. -/
structure Cerebrum (State Strategy : Type) where
  state : State
  feed : EventFeed
  accounts : Accounts
  exchange_tx : ExchangeTx
  strategy : Strategy
  event_tx : EventTx

/-- Modelled from the spec: the Engine enumeration of cerebrum states (definition
not under src/); account.rs documents the AccountUpdater to Consumer transition, so
those two states are modelled. -/
inductive Engine (Strategy : Type) where
  | consumer (cerebrum : Cerebrum Consumer Strategy)
  | accountUpdater (cerebrum : Cerebrum AccountUpdater Strategy)

/-- The From impl (src/src/cerebrum/account.rs, lines 44-55): AccountUpdater to
Consumer, copying every non-state field. -/
def Cerebrum.fromAccountUpdater {Strategy : Type}
    (cerebrum : Cerebrum AccountUpdater Strategy) : Cerebrum Consumer Strategy :=
  { state := Consumer.mk
    feed := cerebrum.feed
    accounts := cerebrum.accounts
    exchange_tx := cerebrum.exchange_tx
    strategy := cerebrum.strategy
    event_tx := cerebrum.event_tx }

/-- Cerebrum::update_from_account_event (src/src/cerebrum/account.rs, lines 14-40):
matches the account event only to log a placeholder line (println modelled as
computing the log text), then always transitions to Engine::Consumer via From. -/
def Cerebrum.update_from_account_event {Strategy : Type}
    (self : Cerebrum AccountUpdater Strategy) : Engine Strategy :=
  let _log : String :=
    match self.state.account with
    | AccountEvent.orderNew => "update_from_account: OrderNew"
    | AccountEvent.orderCancelled => "update_from_account: OrderCancelled"
    | AccountEvent.trade => "update_from_account: Trade"
    | AccountEvent.balances => "update_from_account: Balances"
    | AccountEvent.connectionStatus _ => "update_from_account: ConnectionStatus"
  Engine.consumer (Cerebrum.fromAccountUpdater self)

/-- Spec-side (section 4.3): the pointwise semantics of a cancel batch — apply the
single-order primitive to each request independently and collect the bag of
results. -/
def pointwiseCancel (client : ExecutionClient)
    (requests : List (Order ExchangeId InstrumentNameExchange RequestCancel)) :
    Multiset (Order ExchangeId InstrumentNameExchange (Except OrderError Cancelled)) :=
  (requests.map client.cancel_order : Multiset _)

/-- Spec-side (section 4.3): the pointwise semantics of an open batch. -/
def pointwiseOpen (client : ExecutionClient)
    (requests : List (Order ExchangeId InstrumentNameExchange RequestOpen)) :
    Multiset (Order ExchangeId InstrumentNameExchange (Except OrderError Open)) :=
  (requests.map client.open_order : Multiset _)

/-! Concrete fixtures used by the witnesses. -/

/-- A concrete instrument name. -/
def instrA : InstrumentNameExchange := ⟨"btc_usdt"⟩

/-- A second concrete instrument name. -/
def instrB : InstrumentNameExchange := ⟨"eth_usdt"⟩

/-- A third concrete instrument name. -/
def instrC : InstrumentNameExchange := ⟨"sol_usdt"⟩

/-- A concrete cancel request on instrA. -/
def creqA : Order ExchangeId InstrumentNameExchange RequestCancel := ⟨⟨0⟩, instrA, ⟨"A"⟩⟩

/-- A concrete cancel request on instrB. -/
def creqB : Order ExchangeId InstrumentNameExchange RequestCancel := ⟨⟨0⟩, instrB, ⟨"B"⟩⟩

/-- A concrete cancel request on instrC. -/
def creqC : Order ExchangeId InstrumentNameExchange RequestCancel := ⟨⟨0⟩, instrC, ⟨"C"⟩⟩

/-- A concrete open request on instrA. -/
def oreqA : Order ExchangeId InstrumentNameExchange RequestOpen := ⟨⟨0⟩, instrA, ⟨"OA"⟩⟩

/-- A concrete open request on instrB. -/
def oreqB : Order ExchangeId InstrumentNameExchange RequestOpen := ⟨⟨0⟩, instrB, ⟨"OB"⟩⟩

/-- A mock client that accepts every request. -/
def mock0 : ExecutionClient := mockClient [] []

/-- A mock client configured to reject every request on instrB. -/
def mockRejectB : ExecutionClient := mockClient [instrB] []

/-- A concrete asset balance record, matching the spec's fetch_balances scenario. -/
def usdtBalance : AssetBalance AssetNameExchange := ⟨⟨"usdt"⟩, 1000, 800, 0⟩

/-- Helper: every record in a batched cancel dispatch is the single-order result of
one of the submitted requests. -/
theorem cancel_orders_mem (client : ExecutionClient)
    (requests : List (Order ExchangeId InstrumentNameExchange RequestCancel))
    (res : Order ExchangeId InstrumentNameExchange (Except OrderError Cancelled))
    (h : res ∈ client.cancel_orders requests) :
    ∃ req ∈ requests, client.cancel_order req = res := by
  simp only [ExecutionClient.cancel_orders, futuresUnorderedOutputs, Multiset.mem_coe,
    List.mem_map] at h
  exact h

/-- Helper: every record in a batched open dispatch is the single-order result of
one of the submitted requests. -/
theorem open_orders_mem (client : ExecutionClient)
    (requests : List (Order ExchangeId InstrumentNameExchange RequestOpen))
    (res : Order ExchangeId InstrumentNameExchange (Except OrderError Open))
    (h : res ∈ client.open_orders requests) :
    ∃ req ∈ requests, client.open_order req = res := by
  simp only [ExecutionClient.open_orders, futuresUnorderedOutputs, Multiset.mem_coe,
    List.mem_map] at h
  exact h

/-- C1: for every collection of N cancel (resp. open) requests, the default batched
dispatch cancel_orders (resp. open_orders) yields exactly N result records — no
loss, no duplication — each tagged with the exchange/instrument identity of its
originating request (given the adapter contract that single-order calls preserve
request identity), for all N including N = 0. -/
theorem batched_dispatch_exact_result_count
    (client : ExecutionClient) (hid : PreservesOrderIdentity client)
    (creqs : List (Order ExchangeId InstrumentNameExchange RequestCancel))
    (oreqs : List (Order ExchangeId InstrumentNameExchange RequestOpen)) :
    Multiset.card (client.cancel_orders creqs) = creqs.length ∧
    Multiset.card (client.open_orders oreqs) = oreqs.length ∧
    (∀ res ∈ client.cancel_orders creqs, ∃ req ∈ creqs,
      res.exchange = req.exchange ∧ res.instrument = req.instrument) ∧
    (∀ res ∈ client.open_orders oreqs, ∃ req ∈ oreqs,
      res.exchange = req.exchange ∧ res.instrument = req.instrument) := by
  refine ⟨?_, ?_, ?_, ?_⟩
  · simp [ExecutionClient.cancel_orders, futuresUnorderedOutputs]
  · simp [ExecutionClient.open_orders, futuresUnorderedOutputs]
  · intro res hres
    obtain ⟨req, hreq, heq⟩ := cancel_orders_mem client creqs res hres
    exact ⟨req, hreq, heq ▸ (hid.1 req).1, heq ▸ (hid.1 req).2⟩
  · intro res hres
    obtain ⟨req, hreq, heq⟩ := open_orders_mem client oreqs res hres
    exact ⟨req, hreq, heq ▸ (hid.2 req).1, heq ▸ (hid.2 req).2⟩

/-- Witness for C1: the contract hypothesis holds of the accepting mock client, and
the theorem applies at a concrete two-request cancel batch and one-request open
batch. -/
theorem batched_dispatch_exact_result_count_witness :
    Multiset.card (mock0.cancel_orders [creqA, creqB]) = 2 ∧
    Multiset.card (mock0.open_orders [oreqA]) = 1 ∧
    (∀ res ∈ mock0.cancel_orders [creqA, creqB], ∃ req ∈ [creqA, creqB],
      res.exchange = req.exchange ∧ res.instrument = req.instrument) ∧
    (∀ res ∈ mock0.open_orders [oreqA], ∃ req ∈ [oreqA],
      res.exchange = req.exchange ∧ res.instrument = req.instrument) :=
  batched_dispatch_exact_result_count mock0
    ⟨fun _ => ⟨rfl, rfl⟩, fun _ => ⟨rfl, rfl⟩⟩ [creqA, creqB] [oreqA]

/-- C2: when one request in a batch resolves to an OrderError, the batch still
yields a full record set: the failing request's record carries that OrderError, and
the remaining records are exactly the batch of the sibling requests alone (the
failing request only adds its own record to the bag). -/
theorem batched_dispatch_failure_isolation
    (client : ExecutionClient)
    (cpre cpost : List (Order ExchangeId InstrumentNameExchange RequestCancel))
    (cbad : Order ExchangeId InstrumentNameExchange RequestCancel) (ce : OrderError)
    (opre opost : List (Order ExchangeId InstrumentNameExchange RequestOpen))
    (obad : Order ExchangeId InstrumentNameExchange RequestOpen) (oe : OrderError)
    (hcbad : (client.cancel_order cbad).state = Except.error ce)
    (hobad : (client.open_order obad).state = Except.error oe) :
    (client.cancel_order cbad ∈ client.cancel_orders (cpre ++ cbad :: cpost) ∧
     (client.cancel_order cbad).state = Except.error ce ∧
     client.cancel_orders (cpre ++ cbad :: cpost)
       = {client.cancel_order cbad} + client.cancel_orders (cpre ++ cpost) ∧
     Multiset.card (client.cancel_orders (cpre ++ cbad :: cpost))
       = (cpre ++ cbad :: cpost).length) ∧
    (client.open_order obad ∈ client.open_orders (opre ++ obad :: opost) ∧
     (client.open_order obad).state = Except.error oe ∧
     client.open_orders (opre ++ obad :: opost)
       = {client.open_order obad} + client.open_orders (opre ++ opost) ∧
     Multiset.card (client.open_orders (opre ++ obad :: opost))
       = (opre ++ obad :: opost).length) := by
  refine ⟨⟨?_, hcbad, ?_, ?_⟩, ⟨?_, hobad, ?_, ?_⟩⟩
  · simp [ExecutionClient.cancel_orders, futuresUnorderedOutputs]
  · show ((cpre ++ cbad :: cpost).map client.cancel_order : Multiset _)
      = {client.cancel_order cbad} + ((cpre ++ cpost).map client.cancel_order : Multiset _)
    rw [Multiset.singleton_add, Multiset.cons_coe, Multiset.coe_eq_coe]
    simp only [List.map_append, List.map_cons]
    exact List.perm_middle
  · simp [ExecutionClient.cancel_orders, futuresUnorderedOutputs]
  · simp [ExecutionClient.open_orders, futuresUnorderedOutputs]
  · show ((opre ++ obad :: opost).map client.open_order : Multiset _)
      = {client.open_order obad} + ((opre ++ opost).map client.open_order : Multiset _)
    rw [Multiset.singleton_add, Multiset.cons_coe, Multiset.coe_eq_coe]
    simp only [List.map_append, List.map_cons]
    exact List.perm_middle
  · simp [ExecutionClient.open_orders, futuresUnorderedOutputs]

/-- Witness for C2: the rejecting mock client fails creqB and oreqB with an
OrderError, and the batch around creqB equals the sibling batch plus creqB's own
record. -/
theorem batched_dispatch_failure_isolation_witness :
    (mockRejectB.cancel_order creqB).state = Except.error OrderError.notFound ∧
    (mockRejectB.open_order oreqB).state = Except.error (OrderError.rejected "rejected") ∧
    mockRejectB.cancel_orders [creqA, creqB, creqC]
      = {mockRejectB.cancel_order creqB} + mockRejectB.cancel_orders [creqA, creqC] :=
  ⟨by decide, by decide,
    (batched_dispatch_failure_isolation mockRejectB [creqA] [creqC] creqB
      OrderError.notFound [oreqA] [] oreqB (OrderError.rejected "rejected")
      (by decide) (by decide)).1.2.2.1⟩

/-- C3: a single-order cancel_order (resp. open_order) call always resolves to
exactly one order record whose state payload is a Result of Cancelled
(resp. Open) versus OrderError; the embedded return type carries no ClientError
case, so the only possible outcomes are the per-order success and the per-order
error. -/
theorem single_order_call_resolves_to_order_result
    (client : ExecutionClient)
    (creq : Order ExchangeId InstrumentNameExchange RequestCancel)
    (oreq : Order ExchangeId InstrumentNameExchange RequestOpen) :
    ((∃ c : Cancelled, (client.cancel_order creq).state = Except.ok c) ∨
     (∃ e : OrderError, (client.cancel_order creq).state = Except.error e)) ∧
    ((∃ o : Open, (client.open_order oreq).state = Except.ok o) ∨
     (∃ e : OrderError, (client.open_order oreq).state = Except.error e)) := by
  constructor
  · cases h : (client.cancel_order creq).state with
    | ok c => exact Or.inl ⟨c, rfl⟩
    | error e => exact Or.inr ⟨e, rfl⟩
  · cases h : (client.open_order oreq).state with
    | ok o => exact Or.inl ⟨o, rfl⟩
    | error e => exact Or.inr ⟨e, rfl⟩

/-- C4: the default batched dispatch is the pointwise single-order primitive: the
bag of records of cancel_orders (resp. open_orders) is exactly the bag obtained by
applying cancel_order (resp. open_order) to each request independently, and a yield
sequence is producible by the unordered stream exactly when it carries that bag in
some order — the batch adds no behaviour beyond unordered completion. -/
theorem batched_dispatch_refines_pointwise
    (client : ExecutionClient)
    (creqs : List (Order ExchangeId InstrumentNameExchange RequestCancel))
    (oreqs : List (Order ExchangeId InstrumentNameExchange RequestOpen)) :
    client.cancel_orders creqs = pointwiseCancel client creqs ∧
    client.open_orders oreqs = pointwiseOpen client oreqs ∧
    (∀ out, CanYield (creqs.map client.cancel_order) out ↔
      (out : Multiset _) = pointwiseCancel client creqs) ∧
    (∀ out, CanYield (oreqs.map client.open_order) out ↔
      (out : Multiset _) = pointwiseOpen client oreqs) := by
  refine ⟨rfl, rfl, fun out => ?_, fun out => ?_⟩
  · exact ⟨fun h => Multiset.coe_eq_coe.mpr h, fun h => Multiset.coe_eq_coe.mp h⟩
  · exact ⟨fun h => Multiset.coe_eq_coe.mpr h, fun h => Multiset.coe_eq_coe.mp h⟩

/-- Witness for C4 at a concrete client and batch. -/
theorem batched_dispatch_refines_pointwise_witness :
    mockRejectB.cancel_orders [creqA, creqB] = pointwiseCancel mockRejectB [creqA, creqB] ∧
    mockRejectB.open_orders [oreqA] = pointwiseOpen mockRejectB [oreqA] :=
  ⟨(batched_dispatch_refines_pointwise mockRejectB [creqA, creqB] [oreqA]).1,
   (batched_dispatch_refines_pointwise mockRejectB [creqA, creqB] [oreqA]).2.1⟩

/-- C5: order identity is preserved end-to-end: given the adapter contract that the
single-order primitives echo the request identity, the terminal record of
cancel_order and open_order carries the (exchange, instrument) of the originating
request, and every record of the batched dispatch carries the identity of one of
the submitted requests. -/
theorem order_identity_preserved_end_to_end
    (client : ExecutionClient) (hid : PreservesOrderIdentity client)
    (creq : Order ExchangeId InstrumentNameExchange RequestCancel)
    (oreq : Order ExchangeId InstrumentNameExchange RequestOpen)
    (creqs : List (Order ExchangeId InstrumentNameExchange RequestCancel))
    (oreqs : List (Order ExchangeId InstrumentNameExchange RequestOpen)) :
    ((client.cancel_order creq).exchange = creq.exchange ∧
     (client.cancel_order creq).instrument = creq.instrument) ∧
    ((client.open_order oreq).exchange = oreq.exchange ∧
     (client.open_order oreq).instrument = oreq.instrument) ∧
    (∀ res ∈ client.cancel_orders creqs, ∃ req ∈ creqs,
      res.exchange = req.exchange ∧ res.instrument = req.instrument) ∧
    (∀ res ∈ client.open_orders oreqs, ∃ req ∈ oreqs,
      res.exchange = req.exchange ∧ res.instrument = req.instrument) := by
  refine ⟨hid.1 creq, hid.2 oreq, ?_, ?_⟩
  · intro res hres
    obtain ⟨req, hreq, heq⟩ := cancel_orders_mem client creqs res hres
    exact ⟨req, hreq, heq ▸ (hid.1 req).1, heq ▸ (hid.1 req).2⟩
  · intro res hres
    obtain ⟨req, hreq, heq⟩ := open_orders_mem client oreqs res hres
    exact ⟨req, hreq, heq ▸ (hid.2 req).1, heq ▸ (hid.2 req).2⟩

/-- Witness for C5: the rejecting mock client satisfies the identity contract (it
echoes identity even on the rejected instrument), applied at concrete requests. -/
theorem order_identity_preserved_end_to_end_witness :
    ((mockRejectB.cancel_order creqB).exchange = creqB.exchange ∧
     (mockRejectB.cancel_order creqB).instrument = creqB.instrument) ∧
    ((mockRejectB.open_order oreqB).exchange = oreqB.exchange ∧
     (mockRejectB.open_order oreqB).instrument = oreqB.instrument) ∧
    (∀ res ∈ mockRejectB.cancel_orders [creqB, creqC], ∃ req ∈ [creqB, creqC],
      res.exchange = req.exchange ∧ res.instrument = req.instrument) ∧
    (∀ res ∈ mockRejectB.open_orders [oreqB], ∃ req ∈ [oreqB],
      res.exchange = req.exchange ∧ res.instrument = req.instrument) :=
  order_identity_preserved_end_to_end mockRejectB
    ⟨fun _ => ⟨rfl, rfl⟩, fun _ => ⟨rfl, rfl⟩⟩ creqB oreqB [creqB, creqC] [oreqB]

/-- C6: establishing the account stream either fails with a ClientError or returns
a stream; once established, every item the stream yields is one of the closed set
of AccountEvent variants (including the ConnectionStatus variant that surfaces
connectivity loss) — the item type carries no error case. -/
theorem account_stream_items_never_error
    (client : ExecutionClient) (assets : List AssetNameExchange)
    (instruments : List InstrumentNameExchange) :
    (∃ e : ClientError, client.account_stream assets instruments = Except.error e) ∨
    (∃ s, client.account_stream assets instruments = Except.ok s ∧
      ∀ n : Nat,
        (∃ o, s n = UnindexedAccountEvent.orderOpened o) ∨
        (∃ o, s n = UnindexedAccountEvent.orderCancelled o) ∨
        (∃ f, s n = UnindexedAccountEvent.trade f) ∨
        (∃ b, s n = UnindexedAccountEvent.balanceUpdate b) ∨
        (∃ st, s n = UnindexedAccountEvent.connectionStatus st)) := by
  cases h : client.account_stream assets instruments with
  | error e => exact Or.inl ⟨e, rfl⟩
  | ok s =>
    refine Or.inr ⟨s, rfl, fun n => ?_⟩
    cases hn : s n with
    | orderOpened o => exact Or.inl ⟨o, rfl⟩
    | orderCancelled o => exact Or.inr (Or.inl ⟨o, rfl⟩)
    | trade f => exact Or.inr (Or.inr (Or.inl ⟨f, rfl⟩))
    | balanceUpdate b => exact Or.inr (Or.inr (Or.inr (Or.inl ⟨b, rfl⟩)))
    | connectionStatus st => exact Or.inr (Or.inr (Or.inr (Or.inr ⟨st, rfl⟩)))

/-- C7 counterexample: Balance::new stores its arguments verbatim and enforces no
invariant, so a balance with available greater than total is constructible. -/
theorem balance_invariant_counterexample :
    ¬ ((Balance.new 0 1 2).available ≤ (Balance.new 0 1 2).total) := by
  decide

/-- C7 amended: the balance constructors store the given values verbatim, so they
preserve — but do not impose — the invariant: a balance built from inputs with
0 ≤ available ≤ total satisfies available ≤ total with both fields non-negative;
the default balance (total 0, available 0) satisfies it; and fetch_balances of the
mock double returns the configured records exactly, so its results satisfy the
invariant precisely when the configured records do. -/
theorem balance_invariant_preserved
    (t now : DateTimeUtc) (total available : ℚ)
    (h : 0 ≤ available ∧ available ≤ total)
    (balances : List (AssetBalance AssetNameExchange))
    (hb : ∀ b ∈ balances, 0 ≤ b.available ∧ b.available ≤ b.total) :
    (Balance.new t total available).time = t ∧
    (Balance.new t total available).total = total ∧
    (Balance.new t total available).available = available ∧
    (Balance.new t total available).available ≤ (Balance.new t total available).total ∧
    0 ≤ (Balance.new t total available).available ∧
    0 ≤ (Balance.new t total available).total ∧
    ((Balance.defaultAt now).available ≤ (Balance.defaultAt now).total ∧
      0 ≤ (Balance.defaultAt now).available) ∧
    (mockClient [] balances).fetch_balances = Except.ok balances ∧
    (∀ bs, (mockClient [] balances).fetch_balances = Except.ok bs →
      ∀ b ∈ bs, 0 ≤ b.available ∧ b.available ≤ b.total) := by
  refine ⟨rfl, rfl, rfl, h.2, h.1, le_trans h.1 h.2, ⟨le_refl 0, le_refl 0⟩, rfl, ?_⟩
  intro bs hbs b hmem
  have hbs2 : bs = balances := by
    have : Except.ok (ε := ClientError) balances = Except.ok bs := hbs
    exact (Except.ok.injEq _ _ ▸ this).symm
  exact hb b (hbs2 ▸ hmem)

/-- Witness for C7's amended theorem at the spec's fetch_balances scenario:
total 1000, available 800. -/
theorem balance_invariant_preserved_witness :
    (Balance.new 0 1000 800).available ≤ (Balance.new 0 1000 800).total ∧
    (mockClient [] [usdtBalance]).fetch_balances = Except.ok [usdtBalance] :=
  ⟨(balance_invariant_preserved 0 0 1000 800 (by norm_num) [usdtBalance]
      (by decide)).2.2.2.1,
   (balance_invariant_preserved 0 0 1000 800 (by norm_num) [usdtBalance]
      (by decide)).2.2.2.2.2.2.2.1⟩

/-- C8: OrderEventBuilder::build succeeds exactly when all seven fields are set;
otherwise it fails with BuilderIncomplete naming the first unset field in the fixed
order time, exchange, instrument, market_meta, decision, quantity, order_type; and
a successful build's OrderEvent carries exactly the values given to the setters. -/
theorem orderEventBuilder_build_spec (b : OrderEventBuilder) :
    (∀ name, b.firstUnset = some name →
      b.build = Except.error (PortfolioError.builderIncomplete name)) ∧
    (b.firstUnset = none → ∃ e, b.build = Except.ok e ∧
      b.time = some e.time ∧ b.exchange = some e.exchange ∧
      b.instrument = some e.instrument ∧ b.market_meta = some e.market_meta ∧
      b.decision = some e.decision ∧ b.quantity = some e.quantity ∧
      b.order_type = some e.order_type) ∧
    ((∃ e, b.build = Except.ok e) ↔
      (b.time.isSome ∧ b.exchange.isSome ∧ b.instrument.isSome ∧
       b.market_meta.isSome ∧ b.decision.isSome ∧ b.quantity.isSome ∧
       b.order_type.isSome)) ∧
    (∀ tv exv insv mmv dv qv otv,
      (((((((OrderEventBuilder.new.set_time tv).set_exchange exv).set_instrument
        insv).set_market_meta mmv).set_decision dv).set_quantity qv).set_order_type
        otv).build
        = Except.ok ⟨tv, exv, insv, mmv, dv, qv, otv⟩) := by
  obtain ⟨ti, ex, ins, mm, d, q, ot⟩ := b
  refine ⟨?_, ?_, ?_, fun tv exv insv mmv dv qv otv => rfl⟩
  · intro name hname
    rcases ti with _ | t
    · injection hname with h2; subst h2; rfl
    rcases ex with _ | e2
    · injection hname with h2; subst h2; rfl
    rcases ins with _ | i
    · injection hname with h2; subst h2; rfl
    rcases mm with _ | m
    · injection hname with h2; subst h2; rfl
    rcases d with _ | dd
    · injection hname with h2; subst h2; rfl
    rcases q with _ | qq
    · injection hname with h2; subst h2; rfl
    rcases ot with _ | oo
    · injection hname with h2; subst h2; rfl
    exact Option.noConfusion hname
  · intro hnone
    rcases ti with _ | t
    · exact Option.noConfusion hnone
    rcases ex with _ | e2
    · exact Option.noConfusion hnone
    rcases ins with _ | i
    · exact Option.noConfusion hnone
    rcases mm with _ | m
    · exact Option.noConfusion hnone
    rcases d with _ | dd
    · exact Option.noConfusion hnone
    rcases q with _ | qq
    · exact Option.noConfusion hnone
    rcases ot with _ | oo
    · exact Option.noConfusion hnone
    exact ⟨⟨t, e2, i, m, dd, qq, oo⟩, rfl, rfl, rfl, rfl, rfl, rfl, rfl, rfl⟩
  · constructor
    · intro hok
      obtain ⟨e2, he⟩ := hok
      rcases ti with _ | t
      · exact Except.noConfusion he
      rcases ex with _ | e3
      · exact Except.noConfusion he
      rcases ins with _ | i
      · exact Except.noConfusion he
      rcases mm with _ | m
      · exact Except.noConfusion he
      rcases d with _ | dd
      · exact Except.noConfusion he
      rcases q with _ | qq
      · exact Except.noConfusion he
      rcases ot with _ | oo
      · exact Except.noConfusion he
      exact ⟨rfl, rfl, rfl, rfl, rfl, rfl, rfl⟩
    · intro hs
      rcases ti with _ | t
      · exact Bool.noConfusion hs.1
      rcases ex with _ | e2
      · exact Bool.noConfusion hs.2.1
      rcases ins with _ | i
      · exact Bool.noConfusion hs.2.2.1
      rcases mm with _ | m
      · exact Bool.noConfusion hs.2.2.2.1
      rcases d with _ | dd
      · exact Bool.noConfusion hs.2.2.2.2.1
      rcases q with _ | qq
      · exact Bool.noConfusion hs.2.2.2.2.2.1
      rcases ot with _ | oo
      · exact Bool.noConfusion hs.2.2.2.2.2.2
      exact ⟨⟨t, e2, i, m, dd, qq, oo⟩, rfl⟩

/-- Witness for C8: the empty builder reports time as the first unset field and
build fails with BuilderIncomplete("time"). -/
theorem orderEventBuilder_build_spec_witness :
    OrderEventBuilder.new.firstUnset = some "time" ∧
    OrderEventBuilder.new.build
      = Except.error (PortfolioError.builderIncomplete "time") :=
  ⟨rfl, (orderEventBuilder_build_spec OrderEventBuilder.new).1 "time" rfl⟩

/-- C9: each OrderEventBuilder setter sets only its own field to the given value and
leaves every other builder field unchanged, and setters applied to distinct fields
commute. -/
theorem orderEventBuilder_setters_frame (b : OrderEventBuilder) (t : DateTimeUtc)
    (ex : Exchange) (ins : Instrument) (mm : MarketMeta) (d : Decision) (q : ℚ)
    (ot : OrderType) :
    ((b.set_time t).time = some t ∧ (b.set_time t).exchange = b.exchange ∧
     (b.set_time t).instrument = b.instrument ∧
     (b.set_time t).market_meta = b.market_meta ∧
     (b.set_time t).decision = b.decision ∧ (b.set_time t).quantity = b.quantity ∧
     (b.set_time t).order_type = b.order_type) ∧
    ((b.set_exchange ex).exchange = some ex ∧ (b.set_exchange ex).time = b.time ∧
     (b.set_exchange ex).instrument = b.instrument ∧
     (b.set_exchange ex).market_meta = b.market_meta ∧
     (b.set_exchange ex).decision = b.decision ∧
     (b.set_exchange ex).quantity = b.quantity ∧
     (b.set_exchange ex).order_type = b.order_type) ∧
    ((b.set_instrument ins).instrument = some ins ∧
     (b.set_instrument ins).time = b.time ∧
     (b.set_instrument ins).exchange = b.exchange ∧
     (b.set_instrument ins).market_meta = b.market_meta ∧
     (b.set_instrument ins).decision = b.decision ∧
     (b.set_instrument ins).quantity = b.quantity ∧
     (b.set_instrument ins).order_type = b.order_type) ∧
    ((b.set_market_meta mm).market_meta = some mm ∧
     (b.set_market_meta mm).time = b.time ∧
     (b.set_market_meta mm).exchange = b.exchange ∧
     (b.set_market_meta mm).instrument = b.instrument ∧
     (b.set_market_meta mm).decision = b.decision ∧
     (b.set_market_meta mm).quantity = b.quantity ∧
     (b.set_market_meta mm).order_type = b.order_type) ∧
    ((b.set_decision d).decision = some d ∧ (b.set_decision d).time = b.time ∧
     (b.set_decision d).exchange = b.exchange ∧
     (b.set_decision d).instrument = b.instrument ∧
     (b.set_decision d).market_meta = b.market_meta ∧
     (b.set_decision d).quantity = b.quantity ∧
     (b.set_decision d).order_type = b.order_type) ∧
    ((b.set_quantity q).quantity = some q ∧ (b.set_quantity q).time = b.time ∧
     (b.set_quantity q).exchange = b.exchange ∧
     (b.set_quantity q).instrument = b.instrument ∧
     (b.set_quantity q).market_meta = b.market_meta ∧
     (b.set_quantity q).decision = b.decision ∧
     (b.set_quantity q).order_type = b.order_type) ∧
    ((b.set_order_type ot).order_type = some ot ∧
     (b.set_order_type ot).time = b.time ∧
     (b.set_order_type ot).exchange = b.exchange ∧
     (b.set_order_type ot).instrument = b.instrument ∧
     (b.set_order_type ot).market_meta = b.market_meta ∧
     (b.set_order_type ot).decision = b.decision ∧
     (b.set_order_type ot).quantity = b.quantity) ∧
    ((b.set_time t).set_exchange ex = (b.set_exchange ex).set_time t ∧
     (b.set_time t).set_instrument ins = (b.set_instrument ins).set_time t ∧
     (b.set_time t).set_market_meta mm = (b.set_market_meta mm).set_time t ∧
     (b.set_time t).set_decision d = (b.set_decision d).set_time t ∧
     (b.set_time t).set_quantity q = (b.set_quantity q).set_time t ∧
     (b.set_time t).set_order_type ot = (b.set_order_type ot).set_time t ∧
     (b.set_exchange ex).set_instrument ins = (b.set_instrument ins).set_exchange ex ∧
     (b.set_exchange ex).set_market_meta mm = (b.set_market_meta mm).set_exchange ex ∧
     (b.set_exchange ex).set_decision d = (b.set_decision d).set_exchange ex ∧
     (b.set_exchange ex).set_quantity q = (b.set_quantity q).set_exchange ex ∧
     (b.set_exchange ex).set_order_type ot = (b.set_order_type ot).set_exchange ex ∧
     (b.set_instrument ins).set_market_meta mm
       = (b.set_market_meta mm).set_instrument ins ∧
     (b.set_instrument ins).set_decision d = (b.set_decision d).set_instrument ins ∧
     (b.set_instrument ins).set_quantity q = (b.set_quantity q).set_instrument ins ∧
     (b.set_instrument ins).set_order_type ot
       = (b.set_order_type ot).set_instrument ins ∧
     (b.set_market_meta mm).set_decision d = (b.set_decision d).set_market_meta mm ∧
     (b.set_market_meta mm).set_quantity q = (b.set_quantity q).set_market_meta mm ∧
     (b.set_market_meta mm).set_order_type ot
       = (b.set_order_type ot).set_market_meta mm ∧
     (b.set_decision d).set_quantity q = (b.set_quantity q).set_decision d ∧
     (b.set_decision d).set_order_type ot = (b.set_order_type ot).set_decision d ∧
     (b.set_quantity q).set_order_type ot = (b.set_order_type ot).set_quantity q) :=
  ⟨⟨rfl, rfl, rfl, rfl, rfl, rfl, rfl⟩, ⟨rfl, rfl, rfl, rfl, rfl, rfl, rfl⟩,
   ⟨rfl, rfl, rfl, rfl, rfl, rfl, rfl⟩, ⟨rfl, rfl, rfl, rfl, rfl, rfl, rfl⟩,
   ⟨rfl, rfl, rfl, rfl, rfl, rfl, rfl⟩, ⟨rfl, rfl, rfl, rfl, rfl, rfl, rfl⟩,
   ⟨rfl, rfl, rfl, rfl, rfl, rfl, rfl⟩,
   ⟨rfl, rfl, rfl, rfl, rfl, rfl, rfl, rfl, rfl, rfl, rfl, rfl, rfl, rfl, rfl, rfl,
    rfl, rfl, rfl, rfl, rfl⟩⟩

/-- C10: for every account event variant, Cerebrum::update_from_account_event
returns Engine::Consumer — never any other engine state — and the transition
preserves the feed, accounts, exchange_tx, strategy and event_tx fields. -/
theorem update_from_account_event_always_consumer {Strategy : Type}
    (c : Cerebrum AccountUpdater Strategy) :
    c.update_from_account_event = Engine.consumer (Cerebrum.fromAccountUpdater c) ∧
    (∃ c2 : Cerebrum Consumer Strategy,
      c.update_from_account_event = Engine.consumer c2 ∧
      c2.feed = c.feed ∧ c2.accounts = c.accounts ∧
      c2.exchange_tx = c.exchange_tx ∧ c2.strategy = c.strategy ∧
      c2.event_tx = c.event_tx) ∧
    (∀ d : Cerebrum AccountUpdater Strategy,
      c.update_from_account_event ≠ Engine.accountUpdater d) := by
  refine ⟨rfl,
    ⟨Cerebrum.fromAccountUpdater c, rfl, rfl, rfl, rfl, rfl, rfl⟩,
    fun d h => ?_⟩
  have h2 : Engine.consumer (Cerebrum.fromAccountUpdater c)
      = Engine.accountUpdater d := h
  exact Engine.noConfusion h2

end Barter
